import Mathlib

/-!
Verification development for the Anna KVS server node (`src/kvs/server.cpp`).

The definitions below are a shallow embedding of the server's `run` event
loop and `main` startup code.  Pure computations are translated directly;
stateful loop bodies become explicit state-passing functions.  C++
`std::set` / `std::map` containers are modelled as duplicate-free
association lists (iteration order of the original containers is immaterial
to the properties proved here, except for `std::multiset` of time points,
which is modelled as an ascending list because the garbage-collection loop
iterates it in order).
-/

namespace Anna

abbrev Key := String
abbrev Address := String

/-- `ServerThread` from the hash-ring header: a (public-address,
private-address, thread-id) triple denoting a message endpoint. -/
structure ServerThread where
  public_ip : String
  private_ip : String
  tid : Nat
deriving DecidableEq, Repr

/-- Modelled from the spec: server threads bind named endpoints derived from
`(private_ip, thread_id)`; the address-forming member functions live in the
hash-ring header, outside this file.  The exact strings are irrelevant; each
endpoint kind uses a distinct tag. -/
def gossip_connect_address (st : ServerThread) : Address :=
  "gossip:" ++ st.private_ip ++ ":" ++ toString st.tid

/-- Modelled from the spec: the key-request endpoint of a thread. -/
def key_request_connect_address (st : ServerThread) : Address :=
  "key_request:" ++ st.private_ip ++ ":" ++ toString st.tid

/-- Modelled from the spec: the cache-update endpoint of the cache thread
`CacheThread(cache_ip, 0)` used for cache-directed gossip. -/
def cache_update_connect_address (cache_ip : Address) : Address :=
  "cache_update:" ++ cache_ip ++ ":0"

/-- `LatticeType` enumeration from the shared schema. -/
inductive LatticeType
  | LWW | SET | ORDERED_SET | SINGLE_CAUSAL | MULTI_CAUSAL | PRIORITY
deriving DecidableEq, Repr

/-- `RequestType` enumeration from the shared schema. -/
inductive RequestType
  | GET | PUT
deriving DecidableEq, Repr

/-- `KeyProperty`: byte size and lattice type of a stored key. -/
structure KeyProperty where
  size_ : Nat
  type_ : LatticeType
deriving DecidableEq, Repr

/-- Modelled from the spec: the shared-schema `Tier` enumeration (declared
outside this file) admits values other than `MEMORY` and `DISK`; `OTHER`
stands for any such unrecognized value, which `run` rejects. -/
inductive Tier
  | MEMORY | DISK | OTHER
deriving DecidableEq, Repr

/-! ## Event loop dispatch (server.cpp lines 286-350)

The nine pollable channels, in the order of the `pollitems` vector.  Each
loop iteration polls and dispatches every ready channel in that order; the
self-depart handler is followed by `return`, every other handler falls
through to the next channel. -/

inductive Channel
  | nodeJoin | nodeDepart | selfDepart | keyRequest | gossip
  | replicationResponse | replicationChange | cacheIpResponse
  | managementNodeResponse
deriving DecidableEq, Repr

inductive LoopAction
  | proceed | terminate
deriving DecidableEq, Repr

def LoopAction.isTerminate : LoopAction → Bool
  | .terminate => true
  | .proceed => false

/-- What each channel's dispatch block does to the loop: the self-depart
block ends in `return` (line 349); every other block continues. -/
def handlerAction : Channel → LoopAction
  | .selfDepart => .terminate
  | _ => .proceed

/-- The order of the `pollitems` vector (lines 287-296). -/
def pollOrder : List Channel :=
  [.nodeJoin, .nodeDepart, .selfDepart, .keyRequest, .gossip,
   .replicationResponse, .replicationChange, .cacheIpResponse,
   .managementNodeResponse]

/-- Dispatch the ready channels in poll order; stop at the first handler
that returns out of `run`. -/
def dispatchChannels (ready : Channel → Bool) : List Channel → LoopAction
  | [] => .proceed
  | c :: rest =>
    if ready c then
      match handlerAction c with
      | .terminate => .terminate
      | .proceed => dispatchChannels ready rest
    else dispatchChannels ready rest

/-- One iteration of the `while (true)` event loop, restricted to its
channel-dispatch phase: which channels were ready, and whether the loop
body returned. -/
def loopIteration (ready : Channel → Bool) : LoopAction :=
  dispatchChannels ready pollOrder

/-! ## SERVER_TYPE parsing and exit codes (server.cpp lines 710-798, 219-229) -/

/-- C `strncmp` on NUL-free character lists: compares at most `n`
characters, treating the end of a list as the NUL terminator. -/
def strncmp (s t : List Char) (n : Nat) : Int :=
  match n, s, t with
  | 0, _, _ => 0
  | _ + 1, [], [] => 0
  | _ + 1, [], c :: _ => -(c.toNat : Int)
  | _ + 1, c :: _, [] => (c.toNat : Int)
  | n + 1, a :: as, b :: bs =>
    if a = b then strncmp as bs n else (a.toNat : Int) - (b.toNat : Int)

/-- The `SERVER_TYPE` dispatch in `main` (lines 717-734): `none` models an
unset environment variable; a set value is matched with
`strncmp(stype, "memory", 6)` and `strncmp(stype, "ebs", 3)`; an
unrecognized value makes `main` return 1. -/
def selectTier : Option (List Char) → Except Nat Tier
  | some stype =>
    if strncmp stype "memory".toList 6 = 0 then .ok Tier.MEMORY
    else if strncmp stype "ebs".toList 3 = 0 then .ok Tier.DISK
    else .error 1
  | none => .ok Tier.MEMORY

/-- Placeholder for the serializer registry built in `run`; only which
family was constructed matters here. -/
inductive SerializerFamily
  | memoryBackends | diskBackends
deriving DecidableEq, Repr

/-- The serializer-construction switch in `run` (lines 199-229): memory
tier builds the in-memory backends, disk tier the on-disk backends, and any
other tier value logs and calls `exit(1)`. -/
def buildSerializers : Tier → Except Nat SerializerFamily
  | Tier.MEMORY => .ok .memoryBackends
  | Tier.DISK => .ok .diskBackends
  | Tier.OTHER => .error 1

/-- The process exit status as a function of `SERVER_TYPE`: `main` returns
1 on an unrecognized server type; `run` calls `exit(1)` on an unrecognized
tier; otherwise `run` returns only via the self-depart channel
(`loopIteration`), after which `main` joins the workers and returns 0
(lines 790-797). -/
def serverExitCode (server_type : Option (List Char)) : Nat :=
  match selectTier server_type with
  | .error c => c
  | .ok tier =>
    match buildSerializers tier with
    | .error c => c
    | .ok _ => 0

/-! ## Address→keyset maps (`AddressKeysetMap`)

`map<Address, set<Key>>`, modelled as an association list whose value
lists are kept duplicate-free by `setInsert`. -/

abbrev AddrKeysetMap := List (Address × List Key)

/-- `std::set` insertion (no duplicates). -/
def setInsert (l : List Key) (k : Key) : List Key :=
  if k ∈ l then l else l ++ [k]

/-- `addr_keyset_map[address].insert(key)`: `operator[]` creates an empty
entry on first access, then the key is inserted into its set. -/
def mapInsert (m : AddrKeysetMap) (a : Address) (k : Key) : AddrKeysetMap :=
  match m with
  | [] => [(a, [k])]
  | p :: rest =>
    if p.1 = a then (p.1, setInsert p.2 k) :: rest
    else p :: mapInsert rest a k

/-- The key set stored under an address (empty if absent). -/
def lookupKeys (m : AddrKeysetMap) (a : Address) : List Key :=
  match m with
  | [] => []
  | p :: rest => if p.1 = a then p.2 else lookupKeys rest a

/-! ## Periodic gossip of the local changeset (server.cpp lines 451-500) -/

/-- `key_to_cache_ips[key]` when present (`find` on line 480). -/
def cacheIpsOf (key_to_cache_ips : List (Key × List Address)) (key : Key) :
    Option (List Address) :=
  match key_to_cache_ips.find? (fun p => p.1 = key) with
  | some p => some p.2
  | none => none

/-- The cache-ip set of a key, empty when absent. -/
def cacheIpsGet (key_to_cache_ips : List (Key × List Address)) (key : Key) :
    List Address :=
  (cacheIpsOf key_to_cache_ips key).getD []

/-- The body of the `for (const Key &key : local_changeset)` loop
(lines 462-487): `resp` abstracts `get_responsible_threads` (declared in
the hash-ring utilities, outside this file), returning `none` when the
`succeed` flag comes back false.  On success every responsible thread
other than `wt` has the key staged under its gossip endpoint; on failure
an error is logged and nothing is staged for peers.  Either way the key is
staged under the cache-update endpoint of every cache ip recorded for it. -/
def stageForKey (wt : ServerThread) (resp : Key → Option (List ServerThread))
    (key_to_cache_ips : List (Key × List Address))
    (m : AddrKeysetMap) (key : Key) : AddrKeysetMap :=
  let m1 := match resp key with
    | some threads =>
      threads.foldl
        (fun acc thread =>
          if thread = wt then acc
          else mapInsert acc (gossip_connect_address thread) key) m
    | none => m
  match cacheIpsOf key_to_cache_ips key with
  | some cache_ips =>
    cache_ips.foldl
      (fun acc cache_ip => mapInsert acc (cache_update_connect_address cache_ip) key) m1
  | none => m1

/-- The gossip-timer block (lines 458-491): when the changeset is
non-empty, build `addr_keyset_map` over all changed keys, send it
(`send_gossip`, returned as the first component), and clear the
changeset.  When it is empty nothing is staged. -/
def gossipTick (wt : ServerThread) (resp : Key → Option (List ServerThread))
    (key_to_cache_ips : List (Key × List Address))
    (local_changeset : List Key) : AddrKeysetMap × List Key :=
  if local_changeset.isEmpty then ([], local_changeset)
  else (local_changeset.foldl (stageForKey wt resp key_to_cache_ips) [], [])

/-! ## Data redistribution after a node join (server.cpp lines 661-706) -/

/-- The inner `for (const Key &key : key_set)` loop (lines 673-679):
collect keys into `sent_keys` until its size reaches
`DATA_REDISTRIBUTE_THRESHOLD` (checked after each insertion), then break.
`threshold` abstracts the `DATA_REDISTRIBUTE_THRESHOLD` constant, which is
defined in a header outside this file. -/
def sentKeysLoop (threshold : Nat) : List Key → List Key → List Key
  | [], sent => sent
  | k :: rest, sent =>
    if threshold ≤ (sent ++ [k]).length then sent ++ [k]
    else sentKeysLoop threshold rest (sent ++ [k])

def sentKeys (threshold : Nat) (key_set : List Key) : List Key :=
  sentKeysLoop threshold key_set []

/-- One pass over `join_gossip_map` (lines 663-693).  Note that the loop
body copies each entry's key set (`set<Key> key_set = join_pair.second;`)
and erases the sent keys only from that copy; the map itself is mutated
solely by erasing the addresses collected in `remove_address_set`, i.e.
those whose copy became empty.  Returns the staged `addr_keyset_map` and
the map as it stands after the erasures. -/
def joinGossipTick (threshold : Nat) (join_gossip_map : AddrKeysetMap) :
    AddrKeysetMap × AddrKeysetMap :=
  let staged := join_gossip_map.foldl
    (fun acc p => (sentKeys threshold p.2).foldl (fun acc2 k => mapInsert acc2 p.1 k) acc) []
  let kept := join_gossip_map.filter
    (fun p => !(p.2.filter (fun k => !((sentKeys threshold p.2).contains k))).isEmpty)
  (staged, kept)

/-- The per-thread state touched by the join-redistribution block.  The
per-lattice-type serializer backends are collapsed into one map keyed by
`Key` (a key has a single lattice type, so the backends partition the key
space); `serializer_store` holds the keys currently present in them. -/
structure JoinState where
  join_gossip_map : AddrKeysetMap
  join_remove_set : List Key
  stored_key_map : List (Key × KeyProperty)
  serializer_store : List (Key × String)
deriving DecidableEq, Repr

/-- The `if (join_gossip_map.size() != 0)` block at the bottom of the
event loop (lines 662-706): drain one slice, send it, and — only when the
map has become empty — remove every key in `join_remove_set` from the
serializer and from `stored_key_map` and clear `join_remove_set`. -/
def joinRedistributeTick (threshold : Nat) (s : JoinState) :
    JoinState × AddrKeysetMap :=
  if s.join_gossip_map.isEmpty then (s, [])
  else
    let res := joinGossipTick threshold s.join_gossip_map
    if res.2.isEmpty then
      ({ join_gossip_map := res.2,
         join_remove_set := [],
         stored_key_map :=
           s.stored_key_map.filter (fun p => !(s.join_remove_set.contains p.1)),
         serializer_store :=
           s.serializer_store.filter (fun p => !(s.join_remove_set.contains p.1)) },
       res.1)
    else ({ s with join_gossip_map := res.2 }, res.1)

/-! ## The periodic report (server.cpp lines 18-22 and 505-659) -/

/-- Line 19: report period in seconds. -/
def kServerReportThreshold : Nat := 15

/-- Line 22: key monitoring window in seconds. -/
def kKeyMonitoringThreshold : Nat := 60

/-- The staleness test of the garbage-collection loop (lines 573-577):
`duration_cast<seconds>(current_time - time).count() >= kKeyMonitoringThreshold`.
Time points are modelled as `Nat` seconds; truncated `Nat` subtraction
matches the C++ comparison, whose left side is negative (hence below the
threshold) when `time` is in the future. -/
def isStale (current_time t : Nat) : Bool :=
  decide (kKeyMonitoringThreshold ≤ current_time - t)

/-- The per-key garbage-collection loop (lines 572-580), acting on the
local copy `access_times` of a key's timestamp multiset (ascending list):
iterate in order, and at the first stale time point erase all elements
equal to it (`std::multiset::erase(const key&)`) and break. -/
def gcAccessTimes (current_time : Nat) (access_times : List Nat) : List Nat :=
  match access_times.find? (isStale current_time) with
  | some t => access_times.filter (fun x => !(x == t))
  | none => access_times

/-- Modelled from the spec: `is_primary_replica` (declared in the
hash-ring utilities, outside this file) holds when this thread is the
first entry in the responsible list of the key; `respFull` abstracts that
list. -/
def is_primary_replica (respFull : Key → List ServerThread)
    (wt : ServerThread) (k : Key) : Bool :=
  match respFull k with
  | [] => false
  | t :: _ => t = wt

/-- The three metadata report kinds used by the reporter. -/
inductive MetadataType
  | server_stats | key_access | key_size
deriving DecidableEq, Repr

def metadataTypeName : MetadataType → String
  | .server_stats => "server_stats"
  | .key_access => "key_access"
  | .key_size => "key_size"

def tierName : Tier → String
  | .MEMORY => "memory"
  | .DISK => "ebs"
  | .OTHER => "other"

/-- Modelled from the spec: `get_metadata_key` (declared in a metadata
header outside this file) forms a reserved key whose prefix identifies the
metadata type, keyed by the reporting tier and thread. -/
def get_metadata_key (wt : ServerThread) (tier : Tier) (tid : Nat)
    (mt : MetadataType) : Key :=
  metadataTypeName mt ++ "_" ++ tierName tier ++ "_" ++ wt.private_ip ++ "_" ++
    toString tid

/-- `ServerThreadStatistics` fields set on lines 539-543.  The `double`
occupancy division of line 534 is modelled as an exact rational. -/
structure ServerThreadStatistics where
  storage_consumption : Nat
  occupancy : ℚ
  epoch : Nat
  access_count : Nat
deriving DecidableEq, Repr

/-- The serialized body of a report PUT; protobuf serialization is
modelled as the identity on the structured record. -/
inductive ReportPayload
  | stats (s : ServerThreadStatistics)
  | keyAccess (counts : List (Key × Nat))
  | keySize (sizes : List (Key × Nat))
deriving DecidableEq, Repr

/-- A report `KeyRequest` as assembled by `prepare_put_tuple(req, key,
LatticeType::LWW, serialize(ts, body))`. -/
structure KeyRequest where
  type : RequestType
  key : Key
  lattice_type : LatticeType
  timestamp : Nat
  payload : ReportPayload
deriving DecidableEq, Repr

/-- `std::next(begin(threads), rand_r(&seed) % threads.size())` with the
random draw `r` passed in; `none` when the list is empty (in the source
this selection is guarded by `threads.size() != 0`). -/
def pickThread (threads : List ServerThread) (r : Nat) : Option ServerThread :=
  threads[r % threads.length]?

/-- Everything the report block produces: the three guarded metadata PUTs
(with their chosen destination addresses), the report bodies, and the
updated per-interval state. -/
structure ReportOutput where
  newEpoch : Nat
  stat : ServerThreadStatistics
  statsSend : Option (Address × KeyRequest)
  accessData : List (Key × Nat)
  accessSend : Option (Address × KeyRequest)
  keySizes : List (Key × Nat)
  sizeSend : Option (Address × KeyRequest)
  newKeyAccessTracker : List (Key × List Nat)
  newWorkingTime : Nat
  newAccessCount : Nat
deriving Repr

/-- The report block (lines 510-659), entered when `duration >=
kServerReportThreshold`.  `respMeta` abstracts
`get_responsible_threads_metadata`; `respFull` the responsible list used
by `is_primary_replica`; `r1 r2 r3` the three `rand_r` draws; `ts` the
timestamp from `generate_timestamp`.  The key-access loop copies each
multiset (`auto access_times = key_access_pair.second;`), garbage-collects
the copy, and reports the copy's size; `key_access_tracker` itself is
returned unchanged, exactly as in the source.  At the end the interval
counters `working_time` and `access_count` are reset to 0. -/
def reportTick (wt : ServerThread) (selfTier : Tier)
    (epoch working_time duration access_count : Nat)
    (stored_key_map : List (Key × KeyProperty))
    (key_access_tracker : List (Key × List Nat))
    (current_time ts : Nat)
    (respMeta : Key → List ServerThread)
    (respFull : Key → List ServerThread)
    (r1 r2 r3 : Nat) : ReportOutput :=
  let epoch1 := epoch + 1
  let statsKey := get_metadata_key wt selfTier wt.tid MetadataType.server_stats
  let consumption := stored_key_map.foldl (fun acc p => acc + p.2.size_) 0
  let occupancy : ℚ := (working_time : ℚ) / ((duration : ℚ) * 1000000)
  let stat : ServerThreadStatistics :=
    { storage_consumption := consumption / 1000
      occupancy := occupancy
      epoch := epoch1
      access_count := access_count }
  let statsReq : KeyRequest :=
    { type := RequestType.PUT, key := statsKey, lattice_type := LatticeType.LWW
      timestamp := ts, payload := ReportPayload.stats stat }
  let statsSend := (pickThread (respMeta statsKey) r1).map
    (fun th => (key_request_connect_address th, statsReq))
  let accessData := key_access_tracker.map
    (fun p => (p.1, (gcAccessTimes current_time p.2).length))
  let accessKey := get_metadata_key wt selfTier wt.tid MetadataType.key_access
  let accessReq : KeyRequest :=
    { type := RequestType.PUT, key := accessKey, lattice_type := LatticeType.LWW
      timestamp := ts, payload := ReportPayload.keyAccess accessData }
  let accessSend := (pickThread (respMeta accessKey) r2).map
    (fun th => (key_request_connect_address th, accessReq))
  let keySizes :=
    (stored_key_map.filter (fun p => is_primary_replica respFull wt p.1)).map
      (fun p => (p.1, p.2.size_))
  let sizeKey := get_metadata_key wt selfTier wt.tid MetadataType.key_size
  let sizeReq : KeyRequest :=
    { type := RequestType.PUT, key := sizeKey, lattice_type := LatticeType.LWW
      timestamp := ts, payload := ReportPayload.keySize keySizes }
  let sizeSend := (pickThread (respMeta sizeKey) r3).map
    (fun th => (key_request_connect_address th, sizeReq))
  { newEpoch := epoch1
    stat := stat
    statsSend := statsSend
    accessData := accessData
    accessSend := accessSend
    keySizes := keySizes
    sizeSend := sizeSend
    newKeyAccessTracker := key_access_tracker
    newWorkingTime := 0
    newAccessCount := 0 }

/-! ## Concrete sample inputs used to instantiate the theorems -/

def wtA : ServerThread := { public_ip := "1.1.1.1", private_ip := "1.1.1.1", tid := 0 }

def wtB : ServerThread := { public_ip := "2.2.2.2", private_ip := "2.2.2.2", tid := 1 }

/-- A responsibility resolution that always succeeds with the single peer
`wtB`. -/
def respB : Key → Option (List ServerThread) := fun _ => some [wtB]

/-- A cache map holding one cache ip for key `k1`. -/
def ktcA : List (Key × List Address) := [("k1", ["10.0.0.9"])]

/-- A metadata responsibility function with one responsible thread. -/
def respOneA : Key → List ServerThread := fun _ => [wtA]

/-- A metadata responsibility function with no responsible threads. -/
def respEmpty : Key → List ServerThread := fun _ => []

/-- A join state with one pending entry whose single key is also marked
for removal. -/
def joinStateA : JoinState :=
  { join_gossip_map := [("addr1", ["k1"])]
    join_remove_set := ["k1"]
    stored_key_map := [("k1", { size_ := 8, type_ := LatticeType.LWW })]
    serializer_store := [("k1", "v1")] }

/-! ## Helper lemmas about `setInsert`, `mapInsert` and folds -/

theorem mem_setInsert_self (l : List Key) (k : Key) : k ∈ setInsert l k := by
  unfold setInsert
  split
  · assumption
  · exact List.mem_append_right _ (List.mem_singleton.mpr rfl)

theorem mem_setInsert_of_mem {l : List Key} {k : Key} (k2 : Key) (h : k ∈ l) :
    k ∈ setInsert l k2 := by
  unfold setInsert
  split
  · exact h
  · exact List.mem_append_left _ h

theorem lookupKeys_mapInsert_self (m : AddrKeysetMap) (a : Address) (k : Key) :
    k ∈ lookupKeys (mapInsert m a k) a := by
  induction m with
  | nil => simp [mapInsert, lookupKeys]
  | cons p rest ih =>
    obtain ⟨pa, pk⟩ := p
    by_cases h : pa = a
    · subst h
      simp [mapInsert, lookupKeys, mem_setInsert_self]
    · simp [mapInsert, lookupKeys, h, ih]

theorem lookupKeys_mapInsert_mono {m : AddrKeysetMap} {a : Address} {k : Key}
    (a2 : Address) (k2 : Key) (h : k ∈ lookupKeys m a) :
    k ∈ lookupKeys (mapInsert m a2 k2) a := by
  induction m with
  | nil => simp [lookupKeys] at h
  | cons p rest ih =>
    obtain ⟨pa, pk⟩ := p
    by_cases hp : pa = a2
    · subst hp
      by_cases ha : pa = a
      · subst ha
        simp [lookupKeys] at h
        simp [mapInsert, lookupKeys]
        exact mem_setInsert_of_mem _ h
      · simp [lookupKeys, ha] at h
        simp [mapInsert, lookupKeys, ha]
        exact h
    · by_cases ha : pa = a
      · subst ha
        simp [lookupKeys] at h
        simp [mapInsert, lookupKeys, hp]
        exact h
      · simp [lookupKeys, ha] at h
        simp [mapInsert, lookupKeys, hp, ha]
        exact ih h

theorem foldl_lookup_pres {α : Type} {k : Key} {a : Address}
    (step : AddrKeysetMap → α → AddrKeysetMap)
    (hstep : ∀ acc x, k ∈ lookupKeys acc a → k ∈ lookupKeys (step acc x) a)
    (l : List α) (m : AddrKeysetMap) (h : k ∈ lookupKeys m a) :
    k ∈ lookupKeys (l.foldl step m) a := by
  induction l generalizing m with
  | nil => simpa using h
  | cons x xs ih => exact ih _ (hstep m x h)

theorem foldl_lookup_reach {α : Type} {k : Key} {a : Address}
    (step : AddrKeysetMap → α → AddrKeysetMap)
    (hstep : ∀ acc x, k ∈ lookupKeys acc a → k ∈ lookupKeys (step acc x) a)
    {x : α} {l : List α} (hx : x ∈ l)
    (hadd : ∀ acc, k ∈ lookupKeys (step acc x) a)
    (m : AddrKeysetMap) :
    k ∈ lookupKeys (l.foldl step m) a := by
  induction l generalizing m with
  | nil => cases hx
  | cons y ys ih =>
    rcases List.mem_cons.mp hx with h | hmem
    · subst h
      exact foldl_lookup_pres step hstep ys _ (hadd m)
    · exact ih hmem _

theorem stageForKey_mono {k : Key} {a : Address} (wt : ServerThread)
    (resp : Key → Option (List ServerThread))
    (ktc : List (Key × List Address)) (m : AddrKeysetMap) (key : Key)
    (h : k ∈ lookupKeys m a) :
    k ∈ lookupKeys (stageForKey wt resp ktc m key) a := by
  have hstepT : ∀ (acc : AddrKeysetMap) (th : ServerThread),
      k ∈ lookupKeys acc a →
      k ∈ lookupKeys
        (if th = wt then acc else mapInsert acc (gossip_connect_address th) key) a := by
    intro acc th hh
    split
    · exact hh
    · exact lookupKeys_mapInsert_mono _ _ hh
  have hstepC : ∀ (acc : AddrKeysetMap) (ip : Address),
      k ∈ lookupKeys acc a →
      k ∈ lookupKeys (mapInsert acc (cache_update_connect_address ip) key) a := by
    intro acc ip hh
    exact lookupKeys_mapInsert_mono _ _ hh
  unfold stageForKey
  cases hr : resp key with
  | some threads =>
    cases hc : cacheIpsOf ktc key with
    | some ips =>
      simp only
      exact foldl_lookup_pres _ hstepC ips _ (foldl_lookup_pres _ hstepT threads m h)
    | none =>
      simp only
      exact foldl_lookup_pres _ hstepT threads m h
  | none =>
    cases hc : cacheIpsOf ktc key with
    | some ips =>
      simp only
      exact foldl_lookup_pres _ hstepC ips _ h
    | none =>
      simp only
      exact h

theorem stageForKey_thread (wt : ServerThread)
    (resp : Key → Option (List ServerThread))
    (ktc : List (Key × List Address)) (m : AddrKeysetMap) (key : Key)
    {threads : List ServerThread} (hr : resp key = some threads)
    {th : ServerThread} (hth : th ∈ threads) (hne : th ≠ wt) :
    key ∈ lookupKeys (stageForKey wt resp ktc m key) (gossip_connect_address th) := by
  have hstepT : ∀ (acc : AddrKeysetMap) (x : ServerThread),
      key ∈ lookupKeys acc (gossip_connect_address th) →
      key ∈ lookupKeys
        (if x = wt then acc else mapInsert acc (gossip_connect_address x) key)
        (gossip_connect_address th) := by
    intro acc x hh
    split
    · exact hh
    · exact lookupKeys_mapInsert_mono _ _ hh
  have hreach : key ∈ lookupKeys
      (threads.foldl
        (fun acc thread =>
          if thread = wt then acc
          else mapInsert acc (gossip_connect_address thread) key) m)
      (gossip_connect_address th) := by
    refine foldl_lookup_reach _ hstepT hth (fun acc => ?_) m
    simp only [hne, if_neg hne]
    exact lookupKeys_mapInsert_self _ _ _
  unfold stageForKey
  cases hc : cacheIpsOf ktc key with
  | some ips =>
    simp only [hr]
    refine foldl_lookup_pres _ ?_ ips _ hreach
    intro acc ip hh
    exact lookupKeys_mapInsert_mono _ _ hh
  | none =>
    simp only [hr]
    exact hreach

theorem stageForKey_cache (wt : ServerThread)
    (resp : Key → Option (List ServerThread))
    (ktc : List (Key × List Address)) (m : AddrKeysetMap) (key : Key)
    {ip : Address} (hip : ip ∈ cacheIpsGet ktc key) :
    key ∈ lookupKeys (stageForKey wt resp ktc m key)
      (cache_update_connect_address ip) := by
  unfold stageForKey
  cases hc : cacheIpsOf ktc key with
  | some ips =>
    have hips : ip ∈ ips := by
      simpa [cacheIpsGet, hc] using hip
    cases hr : resp key with
    | some threads =>
      simp only
      refine foldl_lookup_reach
        (fun acc cache_ip => mapInsert acc (cache_update_connect_address cache_ip) key)
        (fun acc x hh => lookupKeys_mapInsert_mono _ _ hh)
        hips (fun acc => lookupKeys_mapInsert_self _ _ _) _
    | none =>
      simp only
      refine foldl_lookup_reach
        (fun acc cache_ip => mapInsert acc (cache_update_connect_address cache_ip) key)
        (fun acc x hh => lookupKeys_mapInsert_mono _ _ hh)
        hips (fun acc => lookupKeys_mapInsert_self _ _ _) _
  | none =>
    simp [cacheIpsGet, hc] at hip

theorem pickThread_some_of_ne_nil {l : List ServerThread} (r : Nat) (h : l ≠ []) :
    ∃ th, pickThread l r = some th := by
  have hlen : 0 < l.length := List.length_pos.mpr h
  have hlt : r % l.length < l.length := Nat.mod_lt _ hlen
  exact ⟨l[r % l.length], by simp [pickThread, List.getElem?_eq_getElem hlt]⟩

theorem pickThread_isSome_iff (l : List ServerThread) (r : Nat) :
    (pickThread l r).isSome = true ↔ l ≠ [] := by
  constructor
  · intro h hnil
    subst hnil
    simp [pickThread] at h
  · intro h
    obtain ⟨th, hth⟩ := pickThread_some_of_ne_nil r h
    simp [hth]

theorem strncmp_eq_zero_of_take_eq :
    ∀ (n : Nat) (s t : List Char), s.take n = t.take n → strncmp s t n = 0
  | 0, _, _, _ => by simp [strncmp]
  | _ + 1, [], [], _ => by simp [strncmp]
  | _ + 1, [], _ :: _, h => by simp at h
  | _ + 1, _ :: _, [], h => by simp at h
  | n + 1, a :: s, b :: t, h => by
    simp only [List.take_succ_cons, List.cons.injEq] at h
    obtain ⟨rfl, h2⟩ := h
    simpa [strncmp] using strncmp_eq_zero_of_take_eq n s t h2

theorem take_three_shape {s : List Char} {a b c : Char}
    (h : s.take 3 = [a, b, c]) : ∃ t, s = a :: b :: c :: t := by
  match s with
  | [] =>
    have hx : ([] : List Char).take 3 = [] := rfl
    rw [hx] at h
    simp at h
  | [x] =>
    have hx : ([x] : List Char).take 3 = [x] := rfl
    rw [hx] at h
    simp at h
  | [x, y] =>
    have hx : ([x, y] : List Char).take 3 = [x, y] := rfl
    rw [hx] at h
    simp at h
  | x :: y :: z :: t =>
    have hx : (x :: y :: z :: t).take 3 = [x, y, z] := rfl
    rw [hx] at h
    simp only [List.cons.injEq] at h
    obtain ⟨h1, h2, h3, _⟩ := h
    exact ⟨t, by rw [h1, h2, h3]⟩

/-! ## Claim theorems -/

/-- C5: the server thread's event loop terminates exactly when a message
arrives on the self-depart channel: an iteration of the loop returns out
of `run` precisely when the self-depart channel is ready, while dispatch on
any of the other eight channels leaves the loop running. -/
theorem self_depart_terminal (ready : Channel → Bool) :
    (loopIteration ready).isTerminate = ready Channel.selfDepart := by
  cases h : ready Channel.selfDepart <;>
    simp [loopIteration, pollOrder, dispatchChannels, handlerAction, h,
      LoopAction.isTerminate]

/-- C4: at a gossip-timer tick whose `LocalChangeset` contains `key`, if
the responsibility of `key` resolves successfully then `key` is staged
under the gossip endpoint of every responsible thread other than the
sending thread itself and under the cache-update endpoint of every cache
ip recorded for it in `key_to_cache_ips`; the staged batch is the one
sent, and after the tick the changeset is empty. -/
theorem gossip_tick_stages_changeset (wt : ServerThread)
    (resp : Key → Option (List ServerThread))
    (ktc : List (Key × List Address)) (cs : List Key) (key : Key)
    (threads : List ServerThread)
    (hk : key ∈ cs) (hr : resp key = some threads) :
    (∀ th ∈ threads, th ≠ wt →
      key ∈ lookupKeys (gossipTick wt resp ktc cs).1 (gossip_connect_address th)) ∧
    (∀ ip ∈ cacheIpsGet ktc key,
      key ∈ lookupKeys (gossipTick wt resp ktc cs).1 (cache_update_connect_address ip)) ∧
    (gossipTick wt resp ktc cs).2 = [] := by
  have hne : cs.isEmpty = false := by
    cases cs
    · cases hk
    · rfl
  refine ⟨?_, ?_, ?_⟩
  · intro th hth hthne
    simp only [gossipTick, hne, Bool.false_eq_true, if_false]
    exact foldl_lookup_reach (stageForKey wt resp ktc)
      (fun acc x hh => stageForKey_mono wt resp ktc acc x hh) hk
      (fun acc => stageForKey_thread wt resp ktc acc key hr hth hthne) []
  · intro ip hip
    simp only [gossipTick, hne, Bool.false_eq_true, if_false]
    exact foldl_lookup_reach (stageForKey wt resp ktc)
      (fun acc x hh => stageForKey_mono wt resp ktc acc x hh) hk
      (fun acc => stageForKey_cache wt resp ktc acc key hip) []
  · simp [gossipTick, hne]

theorem gossip_tick_stages_changeset_witness :
    "k1" ∈ lookupKeys (gossipTick wtA respB ktcA ["k1"]).1
      (gossip_connect_address wtB) ∧
    "k1" ∈ lookupKeys (gossipTick wtA respB ktcA ["k1"]).1
      (cache_update_connect_address "10.0.0.9") ∧
    (gossipTick wtA respB ktcA ["k1"]).2 = [] := by
  have h := gossip_tick_stages_changeset wtA respB ktcA ["k1"] "k1" [wtB]
    (by decide) rfl
  exact ⟨h.1 wtB (by simp) (by decide), h.2.1 "10.0.0.9" (by decide), h.2.2⟩

/-- C3: keys in `join_remove_set` are removed from the local serializer
and from `stored_key_map` only at a tick where `join_gossip_map` has
become entirely empty after sending; while `join_gossip_map` remains
non-empty nothing is deleted, and when the deletion happens
`join_remove_set` is cleared. -/
theorem join_remove_only_after_full_drain (threshold : Nat) (s : JoinState) :
    (s.join_gossip_map = [] → (joinRedistributeTick threshold s).1 = s) ∧
    ((joinRedistributeTick threshold s).1.join_gossip_map ≠ [] →
      (joinRedistributeTick threshold s).1.stored_key_map = s.stored_key_map ∧
      (joinRedistributeTick threshold s).1.serializer_store = s.serializer_store ∧
      (joinRedistributeTick threshold s).1.join_remove_set = s.join_remove_set) ∧
    (s.join_gossip_map ≠ [] →
      (joinRedistributeTick threshold s).1.join_gossip_map = [] →
      (joinRedistributeTick threshold s).1.stored_key_map =
        s.stored_key_map.filter (fun p => !(s.join_remove_set.contains p.1)) ∧
      (joinRedistributeTick threshold s).1.serializer_store =
        s.serializer_store.filter (fun p => !(s.join_remove_set.contains p.1)) ∧
      (joinRedistributeTick threshold s).1.join_remove_set = []) := by
  by_cases h0 : s.join_gossip_map.isEmpty
  · have hmap : s.join_gossip_map = [] := by
      cases hm : s.join_gossip_map
      · rfl
      · rw [hm] at h0
        simp at h0
    refine ⟨fun _ => by simp [joinRedistributeTick, h0], ?_, ?_⟩
    · intro _
      simp [joinRedistributeTick, h0]
    · intro hne
      exact absurd hmap hne
  · by_cases h1 : (joinGossipTick threshold s.join_gossip_map).2.isEmpty
    · have hemp : (joinRedistributeTick threshold s).1.join_gossip_map = [] := by
        simp only [joinRedistributeTick, h0, Bool.false_eq_true, if_false, h1,
          if_true]
        cases hm : (joinGossipTick threshold s.join_gossip_map).2
        · rfl
        · rw [hm] at h1
          simp at h1
      refine ⟨?_, ?_, ?_⟩
      · intro hnil
        rw [hnil] at h0
        simp at h0
      · intro hne
        exact absurd hemp hne
      · intro _ _
        simp [joinRedistributeTick, h0, h1]
    · refine ⟨?_, ?_, ?_⟩
      · intro hnil
        rw [hnil] at h0
        simp at h0
      · intro _
        simp [joinRedistributeTick, h0, h1]
      · intro _ hcontra
        simp only [joinRedistributeTick, h0, Bool.false_eq_true, if_false, h1,
          if_false] at hcontra
        rw [hcontra] at h1
        simp at h1

theorem join_remove_only_after_full_drain_witness :
    (joinRedistributeTick 1 joinStateA).1.stored_key_map = [] ∧
    (joinRedistributeTick 1 joinStateA).1.serializer_store = [] ∧
    (joinRedistributeTick 1 joinStateA).1.join_remove_set = [] := by
  have h := (join_remove_only_after_full_drain 1 joinStateA).2.2
    (by decide) (by decide)
  refine ⟨?_, ?_, h.2.2⟩
  · rw [h.1]
    decide
  · rw [h.2.1]
    decide

/-- C1 (code bug): evaluating the report tick at a tracker holding the
access times 0 s, 10 s and 90 s for one key at current time 100 s (window
60 s): both 0 and 10 are stale, yet the garbage-collection loop erases at
most the first stale value, and only from its local copy, so the tracker
comes back unchanged (still holding the stale entries) and the reported
count is 2, while only the single access at 90 lies within the monitoring
window. -/
theorem key_access_gc_is_partial_and_on_copy :
    (reportTick wtA Tier.MEMORY 0 0 15 0 [] [("k", [0, 10, 90])] 100 0
        respEmpty respEmpty 0 0 0).newKeyAccessTracker = [("k", [0, 10, 90])] ∧
    (reportTick wtA Tier.MEMORY 0 0 15 0 [] [("k", [0, 10, 90])] 100 0
        respEmpty respEmpty 0 0 0).accessData = [("k", 2)] ∧
    isStale 100 0 = true ∧ isStale 100 10 = true ∧
    ([0, 10, 90].filter (fun t => !(isStale 100 t))).length = 1 := by
  constructor
  · rfl
  · exact ⟨rfl, by decide, by decide, by decide⟩

/-- C2 (code bug): evaluating the join-gossip drain with threshold 1 at a
map holding one entry of two keys: the first key is staged and sent, but
since the loop erases sent keys only from a local copy of the entry's key
set, the entry in `join_gossip_map` keeps both keys after the tick — the
sent key is not removed and the entry can never drain to empty. -/
theorem join_gossip_sent_keys_not_removed :
    (joinGossipTick 1 [("addr1", ["k1", "k2"])]).1 = [("addr1", ["k1"])] ∧
    (joinGossipTick 1 [("addr1", ["k1", "k2"])]).2 = [("addr1", ["k1", "k2"])] := by
  constructor
  · rfl
  · rfl

/-- C6: at a report tick (assuming a responsible metadata thread exists
for the stats key, see C10), the `server_stats` record is sent as a
`PUT` of a `LWW` value to the `server_stats` metadata key of this tier and
thread, carrying storage consumption equal to the sum of all stored key
sizes divided by 1000, occupancy equal to the accumulated working time
over the interval length, an epoch incremented by exactly 1, and the
current access count. -/
theorem server_stats_report_contents (wt : ServerThread) (selfTier : Tier)
    (epoch working_time duration access_count : Nat)
    (stored_key_map : List (Key × KeyProperty))
    (key_access_tracker : List (Key × List Nat))
    (current_time ts : Nat)
    (respMeta respFull : Key → List ServerThread) (r1 r2 r3 : Nat)
    (h : respMeta (get_metadata_key wt selfTier wt.tid MetadataType.server_stats) ≠ []) :
    ∃ a : Address,
      (reportTick wt selfTier epoch working_time duration access_count
          stored_key_map key_access_tracker current_time ts respMeta respFull
          r1 r2 r3).statsSend =
        some (a,
          { type := RequestType.PUT
            key := get_metadata_key wt selfTier wt.tid MetadataType.server_stats
            lattice_type := LatticeType.LWW
            timestamp := ts
            payload := ReportPayload.stats
              { storage_consumption :=
                  (stored_key_map.foldl (fun acc p => acc + p.2.size_) 0) / 1000
                occupancy := (working_time : ℚ) / ((duration : ℚ) * 1000000)
                epoch := epoch + 1
                access_count := access_count } }) ∧
      (reportTick wt selfTier epoch working_time duration access_count
          stored_key_map key_access_tracker current_time ts respMeta respFull
          r1 r2 r3).newEpoch = epoch + 1 := by
  obtain ⟨th, hth⟩ := pickThread_some_of_ne_nil r1 h
  refine ⟨key_request_connect_address th, ?_, rfl⟩
  simp [reportTick, hth]

theorem server_stats_report_contents_witness :
    ∃ a : Address,
      (reportTick wtA Tier.MEMORY 3 500 15 9
          [("k1", { size_ := 2000, type_ := LatticeType.LWW })] [] 100 77
          respOneA respOneA 0 0 0).statsSend =
        some (a,
          { type := RequestType.PUT
            key := get_metadata_key wtA Tier.MEMORY wtA.tid MetadataType.server_stats
            lattice_type := LatticeType.LWW
            timestamp := 77
            payload := ReportPayload.stats
              { storage_consumption :=
                  (([("k1", { size_ := 2000, type_ := LatticeType.LWW })] :
                      List (Key × KeyProperty)).foldl
                    (fun acc p => acc + p.2.size_) 0) / 1000
                occupancy := ((500 : Nat) : ℚ) / (((15 : Nat) : ℚ) * 1000000)
                epoch := 3 + 1
                access_count := 9 } }) ∧
      (reportTick wtA Tier.MEMORY 3 500 15 9
          [("k1", { size_ := 2000, type_ := LatticeType.LWW })] [] 100 77
          respOneA respOneA 0 0 0).newEpoch = 3 + 1 :=
  server_stats_report_contents wtA Tier.MEMORY 3 500 15 9
    [("k1", { size_ := 2000, type_ := LatticeType.LWW })] [] 100 77
    respOneA respOneA 0 0 0 (by simp [respOneA])

/-- C7: the `key_size` report built at a report tick contains exactly the
pairs `(k, size)` such that `k` is stored in `stored_key_map` with byte
size `size` and the reporting thread is the primary replica of `k` (first
in the responsible list); keys whose primary replica is elsewhere are
excluded. -/
theorem key_size_report_primary_only (wt : ServerThread) (selfTier : Tier)
    (epoch working_time duration access_count : Nat)
    (stored_key_map : List (Key × KeyProperty))
    (key_access_tracker : List (Key × List Nat))
    (current_time ts : Nat)
    (respMeta respFull : Key → List ServerThread) (r1 r2 r3 : Nat)
    (k : Key) (n : Nat) :
    (k, n) ∈ (reportTick wt selfTier epoch working_time duration access_count
        stored_key_map key_access_tracker current_time ts respMeta respFull
        r1 r2 r3).keySizes ↔
      ∃ prop : KeyProperty, (k, prop) ∈ stored_key_map ∧
        is_primary_replica respFull wt k = true ∧ n = prop.size_ := by
  show (k, n) ∈
      (stored_key_map.filter (fun p => is_primary_replica respFull wt p.1)).map
        (fun p => (p.1, p.2.size_)) ↔ _
  constructor
  · intro h
    obtain ⟨p, hp, heq⟩ := List.mem_map.mp h
    obtain ⟨hmem, hprim⟩ := List.mem_filter.mp hp
    obtain ⟨pa, pb⟩ := p
    simp only [Prod.mk.injEq] at heq
    obtain ⟨h1, h2⟩ := heq
    subst h1
    exact ⟨pb, hmem, hprim, h2.symm⟩
  · intro h
    obtain ⟨prop, hmem, hprim, hn⟩ := h
    refine List.mem_map.mpr ⟨(k, prop), List.mem_filter.mpr ⟨hmem, hprim⟩, ?_⟩
    simp [hn]

theorem key_size_report_primary_only_witness :
    ("k1", 7) ∈ (reportTick wtA Tier.MEMORY 0 0 15 0
        [("k1", { size_ := 7, type_ := LatticeType.LWW })] [] 100 0
        respOneA respOneA 0 0 0).keySizes :=
  (key_size_report_primary_only wtA Tier.MEMORY 0 0 15 0
      [("k1", { size_ := 7, type_ := LatticeType.LWW })] [] 100 0
      respOneA respOneA 0 0 0 "k1" 7).mpr
    ⟨{ size_ := 7, type_ := LatticeType.LWW }, by decide, by decide, rfl⟩

/-- C8: an unset `SERVER_TYPE` starts the node in the memory tier; a value
naming neither tier (both `strncmp` tests fail) makes `main` return 1; a
tier value unrecognized inside a worker thread exits with status 1; and
when the tier is recognized the process terminates normally (self-depart,
see C5) with exit status 0. -/
theorem server_type_and_exit_codes :
    selectTier none = Except.ok Tier.MEMORY ∧
    (∀ s : List Char,
      strncmp s "memory".toList 6 ≠ 0 → strncmp s "ebs".toList 3 ≠ 0 →
      selectTier (some s) = Except.error 1 ∧ serverExitCode (some s) = 1) ∧
    buildSerializers Tier.OTHER = Except.error 1 ∧
    (∀ (st : Option (List Char)) (t : Tier),
      selectTier st = Except.ok t → serverExitCode st = 0) := by
  refine ⟨rfl, ?_, rfl, ?_⟩
  · intro s h1 h2
    constructor
    · simp only [selectTier]
      rw [if_neg h1, if_neg h2]
    · simp only [serverExitCode, selectTier]
      rw [if_neg h1, if_neg h2]
  · intro st t h
    cases st with
    | none => rfl
    | some s =>
      by_cases h1 : strncmp s "memory".toList 6 = 0
      · simp only [serverExitCode, selectTier]
        rw [if_pos h1]
        rfl
      · by_cases h2 : strncmp s "ebs".toList 3 = 0
        · simp only [serverExitCode, selectTier]
          rw [if_neg h1, if_pos h2]
          rfl
        · exfalso
          simp only [selectTier] at h
          rw [if_neg h1, if_neg h2] at h
          exact Except.noConfusion h

theorem server_type_and_exit_codes_witness :
    serverExitCode (some "redis".toList) = 1 ∧ serverExitCode none = 0 := by
  constructor
  · exact (server_type_and_exit_codes.2.1 "redis".toList (by decide) (by decide)).2
  · exact server_type_and_exit_codes.2.2.2 none Tier.MEMORY rfl

/-- C9: `SERVER_TYPE` is matched by prefix, not exact comparison: any
value whose first 6 characters are `memory` selects the memory tier, and
any value whose first 3 characters are `ebs` selects the disk tier. -/
theorem server_type_prefix_match :
    (∀ s : List Char, s.take 6 = "memory".toList →
      selectTier (some s) = Except.ok Tier.MEMORY) ∧
    (∀ s : List Char, s.take 3 = "ebs".toList →
      selectTier (some s) = Except.ok Tier.DISK) := by
  constructor
  · intro s h
    have hmm : ("memory".toList).take 6 = "memory".toList := by decide
    have h0 : strncmp s "memory".toList 6 = 0 :=
      strncmp_eq_zero_of_take_eq 6 s "memory".toList (by rw [h, hmm])
    simp only [selectTier]
    rw [if_pos h0]
  · intro s h
    have hebs : "ebs".toList = ['e', 'b', 's'] := rfl
    rw [hebs] at h
    obtain ⟨t, rfl⟩ := take_three_shape h
    have h0 : strncmp ('e' :: 'b' :: 's' :: t) "ebs".toList 3 = 0 := by
      simp [strncmp]
    have h1 : strncmp ('e' :: 'b' :: 's' :: t) "memory".toList 6 ≠ 0 := by
      simp [strncmp]
    simp only [selectTier]
    rw [if_neg h1, if_pos h0]

theorem server_type_prefix_match_witness :
    selectTier (some "memoryX".toList) = Except.ok Tier.MEMORY ∧
    selectTier (some "ebs-gp2".toList) = Except.ok Tier.DISK := by
  constructor
  · exact server_type_prefix_match.1 "memoryX".toList (by decide)
  · exact server_type_prefix_match.2 "ebs-gp2".toList (by decide)

/-- C10: each of the three metadata report PUTs of a report tick
(`server_stats`, `key_access`, `key_size`) is sent exactly when the
responsible metadata thread set computed for its metadata key is
non-empty; when that set is empty the send is silently skipped — the tick
with no responsible metadata threads produces the same statistics, report
bodies, epoch and counter resets, and simply emits nothing. -/
theorem report_sends_guarded_by_metadata_threads (wt : ServerThread)
    (selfTier : Tier) (epoch working_time duration access_count : Nat)
    (stored_key_map : List (Key × KeyProperty))
    (key_access_tracker : List (Key × List Nat))
    (current_time ts : Nat)
    (respMeta respFull : Key → List ServerThread) (r1 r2 r3 : Nat) :
    ((reportTick wt selfTier epoch working_time duration access_count
        stored_key_map key_access_tracker current_time ts respMeta respFull
        r1 r2 r3).statsSend.isSome = true ↔
      respMeta (get_metadata_key wt selfTier wt.tid MetadataType.server_stats) ≠ []) ∧
    ((reportTick wt selfTier epoch working_time duration access_count
        stored_key_map key_access_tracker current_time ts respMeta respFull
        r1 r2 r3).accessSend.isSome = true ↔
      respMeta (get_metadata_key wt selfTier wt.tid MetadataType.key_access) ≠ []) ∧
    ((reportTick wt selfTier epoch working_time duration access_count
        stored_key_map key_access_tracker current_time ts respMeta respFull
        r1 r2 r3).sizeSend.isSome = true ↔
      respMeta (get_metadata_key wt selfTier wt.tid MetadataType.key_size) ≠ []) ∧
    (reportTick wt selfTier epoch working_time duration access_count
        stored_key_map key_access_tracker current_time ts (fun _ => []) respFull
        r1 r2 r3).statsSend = none ∧
    (reportTick wt selfTier epoch working_time duration access_count
        stored_key_map key_access_tracker current_time ts (fun _ => []) respFull
        r1 r2 r3).accessSend = none ∧
    (reportTick wt selfTier epoch working_time duration access_count
        stored_key_map key_access_tracker current_time ts (fun _ => []) respFull
        r1 r2 r3).sizeSend = none ∧
    (reportTick wt selfTier epoch working_time duration access_count
        stored_key_map key_access_tracker current_time ts respMeta respFull
        r1 r2 r3).stat =
      (reportTick wt selfTier epoch working_time duration access_count
        stored_key_map key_access_tracker current_time ts (fun _ => []) respFull
        r1 r2 r3).stat ∧
    (reportTick wt selfTier epoch working_time duration access_count
        stored_key_map key_access_tracker current_time ts respMeta respFull
        r1 r2 r3).accessData =
      (reportTick wt selfTier epoch working_time duration access_count
        stored_key_map key_access_tracker current_time ts (fun _ => []) respFull
        r1 r2 r3).accessData ∧
    (reportTick wt selfTier epoch working_time duration access_count
        stored_key_map key_access_tracker current_time ts respMeta respFull
        r1 r2 r3).keySizes =
      (reportTick wt selfTier epoch working_time duration access_count
        stored_key_map key_access_tracker current_time ts (fun _ => []) respFull
        r1 r2 r3).keySizes ∧
    (reportTick wt selfTier epoch working_time duration access_count
        stored_key_map key_access_tracker current_time ts respMeta respFull
        r1 r2 r3).newEpoch =
      (reportTick wt selfTier epoch working_time duration access_count
        stored_key_map key_access_tracker current_time ts (fun _ => []) respFull
        r1 r2 r3).newEpoch ∧
    (reportTick wt selfTier epoch working_time duration access_count
        stored_key_map key_access_tracker current_time ts respMeta respFull
        r1 r2 r3).newKeyAccessTracker =
      (reportTick wt selfTier epoch working_time duration access_count
        stored_key_map key_access_tracker current_time ts (fun _ => []) respFull
        r1 r2 r3).newKeyAccessTracker ∧
    (reportTick wt selfTier epoch working_time duration access_count
        stored_key_map key_access_tracker current_time ts respMeta respFull
        r1 r2 r3).newWorkingTime =
      (reportTick wt selfTier epoch working_time duration access_count
        stored_key_map key_access_tracker current_time ts (fun _ => []) respFull
        r1 r2 r3).newWorkingTime ∧
    (reportTick wt selfTier epoch working_time duration access_count
        stored_key_map key_access_tracker current_time ts respMeta respFull
        r1 r2 r3).newAccessCount =
      (reportTick wt selfTier epoch working_time duration access_count
        stored_key_map key_access_tracker current_time ts (fun _ => []) respFull
        r1 r2 r3).newAccessCount := by
  have hiff : ∀ (l : List ServerThread) (r : Nat)
      (f : ServerThread → Address × KeyRequest),
      ((pickThread l r).map f).isSome = true ↔ l ≠ [] := by
    intro l r f
    rw [← pickThread_isSome_iff l r]
    cases pickThread l r <;> simp
  refine ⟨?_, ?_, ?_, rfl, rfl, rfl, rfl, rfl, rfl, rfl, rfl, rfl, rfl⟩
  · exact hiff _ r1 _
  · exact hiff _ r2 _
  · exact hiff _ r3 _

theorem report_sends_guarded_witness :
    (reportTick wtA Tier.MEMORY 0 0 15 0 [] [] 100 0 respOneA respOneA
        0 0 0).statsSend.isSome = true ∧
    (reportTick wtA Tier.MEMORY 0 0 15 0 [] [] 100 0 (fun _ => []) respOneA
        0 0 0).statsSend = none := by
  have h := report_sends_guarded_by_metadata_threads wtA Tier.MEMORY 0 0 15 0
    [] [] 100 0 respOneA respOneA 0 0 0
  exact ⟨h.1.mpr (by simp [respOneA]), h.2.2.2.1⟩

end Anna
